import Mathlib

/-!
Verification of the "Image Conversion Form" component of conv.pupbrained.xyz,
a shallow embedding of `frontend/src/App.vue` (Vue 3 script-setup + axios).

The component holds four pieces of reactive state (`selectedFile`, `imageUrl`,
`outputFormat`, `loading`), a file-selection handler `handleFileUpload`, a
derived `isSubmitDisabled`, and an async `submitForm` that POSTs a multipart
body to `//$VITE_BASE_URL/convert_image` and, on success, wraps the binary
response in a fresh object URL.  The template renders a standalone loading
indicator (`v-if='loading'`) followed by an image container holding either the
converted image (`v-if='imageUrl'`) or a second loading indicator
(`v-else-if='loading'`).

`submitForm` is embedded in two steps around its single suspension point (the
awaited HTTP call): `submitStart` performs the guard, sets the loading flag and
builds the request; `submitFinish` consumes the response (success or failure)
and runs the `finally` block.  `submitForm` composes the two; the response is a
parameter of the embedding, as is the build-time `VITE_BASE_URL` value.
-/

namespace ConvApp

/-- A file as supplied by the platform file picker: filename, MIME type and
raw byte content. -/
structure File where
  name : String
  mime : String
  content : List Nat
deriving DecidableEq, Repr

/-- The content of a JS `Blob`: either text (as passed to `new Blob([string])`)
or raw bytes (a binary response body). -/
inductive BlobContent where
  | str : String → BlobContent
  | bytes : List Nat → BlobContent
deriving DecidableEq, Repr

/-- A JS `Blob`: content plus the `type` option (its content type). -/
structure Blob where
  content : BlobContent
  type : String
deriving DecidableEq, Repr

/-- The result of `URL.createObjectURL`: a fresh displayable reference wrapping
a blob. -/
structure ObjectURL where
  blob : Blob
deriving DecidableEq, Repr

/-- `URL.createObjectURL`: creates a displayable reference for a blob. -/
def createObjectURL (b : Blob) : ObjectURL := ⟨b⟩

/-- The component's reactive state: the four `ref`s declared in the script
(`selectedFile`, `imageUrl`, `outputFormat`, `loading`). -/
structure ComponentState where
  selectedFile : Option File
  imageUrl : Option ObjectURL
  outputFormat : String
  loading : Bool
deriving DecidableEq, Repr

/-- The closed set of values offered by the output-format `<select>` in the
template. -/
def outputFormatOptions : List String :=
  ["bmp", "gif", "ico", "jpeg", "pam", "pbm", "pgm", "png", "ppm", "tga",
    "tiff", "webp"]

/-- The `accept` filter of the file input (`acceptedFileType` ref). -/
def acceptedFileType : String := "image/*"

/-- The initial values of the four refs: no file, no image URL, output format
defaulted to png, not loading. -/
def initState : ComponentState :=
  { selectedFile := none, imageUrl := none, outputFormat := "png",
    loading := false }

/-- `handleFileUpload`: if the change event's file list is nonempty, store its
first file as the selected file; otherwise do nothing.  The event's file list
(`target.files`, possibly null) is embedded as a `List File` (null as `[]`). -/
def handleFileUpload (files : List File) (s : ComponentState) :
    ComponentState :=
  match files with
  | [] => s
  | f :: _ => { s with selectedFile := some f }

/-- `isSubmitDisabled`: the submit button's `:disabled` binding,
`!selectedFile.value || loading.value`. -/
def isSubmitDisabled (s : ComponentState) : Bool :=
  s.selectedFile.isNone || s.loading

/-- The spec's derived `canSubmit`: the negation of the submit control's
disabled flag. -/
def canSubmit (s : ComponentState) : Bool :=
  !isSubmitDisabled s

/-- The `v-model` write on the output-format `<select>`. -/
def selectFormat (v : String) (s : ComponentState) : ComponentState :=
  { s with outputFormat := v }

/-- One hex digit (lowercase), for JSON control-character escapes. -/
def hexDigit (n : Nat) : Char :=
  if n < 10 then Char.ofNat (48 + n) else Char.ofNat (87 + n)

/-- Four hex digits, for JSON `\uXXXX` escapes. -/
def hex4 (n : Nat) : String :=
  String.mk [hexDigit (n / 4096 % 16), hexDigit (n / 256 % 16),
    hexDigit (n / 16 % 16), hexDigit (n % 16)]

/-- How `JSON.stringify` escapes one character inside a string literal. -/
def jsonQuoteChar (c : Char) : String :=
  if c = '"' then "\\\""
  else if c = '\\' then "\\\\"
  else if c = Char.ofNat 8 then "\\b"
  else if c = Char.ofNat 9 then "\\t"
  else if c = Char.ofNat 10 then "\\n"
  else if c = Char.ofNat 12 then "\\f"
  else if c = Char.ofNat 13 then "\\r"
  else if c.toNat < 32 then "\\u" ++ hex4 c.toNat
  else String.singleton c

/-- `JSON.stringify` applied to a string value: the quoted, escaped literal. -/
def jsonStringify (s : String) : String :=
  "\"" ++ String.join (s.data.map jsonQuoteChar) ++ "\""

/-- The value of one `FormData` part: a `File` or a `Blob`. -/
inductive FormValue where
  | file : File → FormValue
  | blob : Blob → FormValue
deriving DecidableEq, Repr

/-- One part of a `FormData` body: field name and value. -/
structure FormPart where
  name : String
  value : FormValue
deriving DecidableEq, Repr

/-- The `FormData` built by `submitForm`: the selected file appended under the
field name `file`, then the JSON-stringified output format wrapped in an
`application/json` blob appended under the field name `output_type`. -/
def buildFormData (f : File) (fmt : String) : List FormPart :=
  [⟨"file", FormValue.file f⟩,
    ⟨"output_type",
      FormValue.blob ⟨BlobContent.str (jsonStringify fmt), "application/json"⟩⟩]

/-- The URL `submitForm` posts to: `//$VITE_BASE_URL/convert_image`, where the
base is the build-time environment value `import.meta.env.VITE_BASE_URL`. -/
def convertImageUrl (baseURL : String) : String :=
  "//" ++ baseURL ++ "/convert_image"

/-- The HTTP request issued by `axios.post`: method, target URL, multipart
body, and the explicit `Content-Type` header set in the options. -/
structure Request where
  method : String
  url : String
  body : List FormPart
  contentTypeHeader : String
deriving DecidableEq, Repr

/-- A successful HTTP response as seen by the component: the binary body
(`response.data`, a blob) and the `content-type` response header. -/
structure HttpResponse where
  data : List Nat
  contentType : String
deriving DecidableEq, Repr

/-- A transport-level failure: a network error, a non-success HTTP status
(axios rejects those by default), or a malformed response; the component never
inspects it beyond logging. -/
structure HttpError where
  message : String
deriving DecidableEq, Repr

/-- The observable outcome of one `submitForm` call: the final component
state, whether the missing-file `alert` fired, the network request issued (if
any), and whether `console.error` logged a failure. -/
structure SubmitOutcome where
  state : ComponentState
  alerted : Bool
  request : Option Request
  logged : Bool
deriving DecidableEq, Repr

/-- The first half of `submitForm`, up to the awaited HTTP call: the
missing-file guard (alert and early return, issuing no request), then
`loading.value = true`, the `FormData` construction, and the `axios.post`
request as issued. -/
def submitStart (baseURL : String) (s : ComponentState) :
    ComponentState × Bool × Option Request :=
  match s.selectedFile with
  | none => (s, true, none)
  | some f =>
    ({ s with loading := true }, false,
      some { method := "POST", url := convertImageUrl baseURL,
             body := buildFormData f s.outputFormat,
             contentTypeHeader := "multipart/form-data" })

/-- The second half of `submitForm`, resumed when the HTTP call settles: on
success, wrap `response.data` in a blob tagged with the `content-type` response
header and store its object URL in `imageUrl`; on error, log it
(`console.error`); in both cases the `finally` block clears `loading`.
Returns the new state and whether the error was logged. -/
def submitFinish (s : ComponentState) (resp : Except HttpError HttpResponse) :
    ComponentState × Bool :=
  match resp with
  | Except.ok r =>
    ({ s with
         imageUrl := some (createObjectURL ⟨BlobContent.bytes r.data,
           r.contentType⟩),
         loading := false }, false)
  | Except.error _ => ({ s with loading := false }, true)

/-- One complete `submitForm` execution: `submitStart`, then—when a request
was issued—`submitFinish` on the response. -/
def submitForm (baseURL : String) (s : ComponentState)
    (resp : Except HttpError HttpResponse) : SubmitOutcome :=
  match submitStart baseURL s with
  | (s1, alerted, none) => ⟨s1, alerted, none, false⟩
  | (s1, alerted, some req) =>
    let (s2, logged) := submitFinish s1 resp
    ⟨s2, alerted, some req, logged⟩

/-- A `submitForm` execution during which the user changes the output-format
selector (to `g`) while the request is pending: the `selectFormat` write lands
between `submitStart` and `submitFinish`.  The request was already built at
start, so it is unaffected. -/
def submitInterleaved (baseURL : String) (s : ComponentState) (g : String)
    (resp : Except HttpError HttpResponse) : SubmitOutcome :=
  match submitStart baseURL s with
  | (s1, alerted, none) => ⟨s1, alerted, none, false⟩
  | (s1, alerted, some req) =>
    let (s2, logged) := submitFinish (selectFormat g s1) resp
    ⟨s2, alerted, some req, logged⟩

/-- What the template renders below the form. -/
inductive RenderedElement where
  | image : ObjectURL → RenderedElement
  | loadingIndicator : RenderedElement
deriving DecidableEq, Repr

/-- The image-container div: the converted image if `imageUrl` is present
(`v-if='imageUrl'`), else the loading indicator if `loading`
(`v-else-if='loading'`), else nothing. -/
def renderImageContainer (s : ComponentState) : Option RenderedElement :=
  match s.imageUrl with
  | some u => some (RenderedElement.image u)
  | none =>
    if s.loading then some RenderedElement.loadingIndicator else none

/-- The full render region below the form: the standalone loading indicator
(`v-if='loading'`, lines 34-36 of App.vue) followed by the image-container. -/
def renderTemplate (s : ComponentState) : List RenderedElement :=
  (if s.loading then [RenderedElement.loadingIndicator] else []) ++
    (renderImageContainer s).toList

/-- A concrete file, used to instantiate witnesses. -/
def demoFile : File := ⟨"cat.jpg", "image/jpeg", [7, 7, 7]⟩

/-- A concrete successful response, used to instantiate witnesses. -/
def demoResp : HttpResponse := ⟨[1, 2], "image/png"⟩

/-- A concrete state with a file selected, used to instantiate witnesses. -/
def demoState : ComponentState :=
  { selectedFile := some demoFile, imageUrl := none, outputFormat := "webp",
    loading := false }

/-- C1: `submitForm` sets LoadingFlag true exactly when a file is selected at
invocation, and in that case LoadingFlag is false again when it completes, on
the success path and on every failure path alike; the early missing-file guard
leaves LoadingFlag untouched (so it is never set true there, and never left
stuck true). -/
theorem submitForm_loading_reset (baseURL : String) (s : ComponentState)
    (resp : Except HttpError HttpResponse) :
    (submitStart baseURL s).1.loading = (s.selectedFile.isSome || s.loading) ∧
      (submitForm baseURL s resp).state.loading =
        (if s.selectedFile.isSome then false else s.loading) := by
  cases hf : s.selectedFile <;> cases resp <;>
    simp [submitForm, submitStart, submitFinish, hf]

/-- C2: `canSubmit` (the negation of the submit control's disabled flag) is
true iff a file is selected and no submission is in flight; the control is
disabled whenever no file is selected and whenever LoadingFlag is true. -/
theorem canSubmit_spec (s : ComponentState) :
    canSubmit s = (s.selectedFile.isSome && !s.loading) ∧
      (s.selectedFile = none → isSubmitDisabled s = true) ∧
      (s.loading = true → isSubmitDisabled s = true) := by
  obtain ⟨sf, iu, fmt, ld⟩ := s
  cases sf <;> cases ld <;> simp [canSubmit, isSubmitDisabled]

/-- Witness for C2, at a state with no file and a submission in flight, and at
one with a file and a submission in flight: both are disabled. -/
theorem canSubmit_spec_witness :
    isSubmitDisabled ⟨none, none, "png", true⟩ = true ∧
      isSubmitDisabled ⟨some demoFile, none, "png", true⟩ = true :=
  ⟨(canSubmit_spec ⟨none, none, "png", true⟩).2.1 rfl,
    (canSubmit_spec ⟨some demoFile, none, "png", true⟩).2.2 rfl⟩

/-- C3: calling `submitForm` with no file selected alerts the user, issues no
network request, logs nothing, and leaves the whole component state (including
LoadingFlag, SelectedFile, OutputFormat and ResultImageURL) unchanged. -/
theorem submitForm_guard (baseURL : String) (s : ComponentState)
    (resp : Except HttpError HttpResponse) (h : s.selectedFile = none) :
    submitForm baseURL s resp =
      { state := s, alerted := true, request := none, logged := false } := by
  simp [submitForm, submitStart, h]

/-- Witness for C3, at the initial state: the alert fires, no request is
issued, and the state (with LoadingFlag false) is returned unchanged. -/
theorem submitForm_guard_witness :
    submitForm "example.com" initState (Except.error ⟨"unreached"⟩) =
      { state := initState, alerted := true, request := none,
        logged := false } :=
  submitForm_guard "example.com" initState (Except.error ⟨"unreached"⟩) rfl

/-- C4: when the HTTP call fails (network error, non-success status, or
malformed response), `submitForm` logs the error and nothing more: no alert,
ResultImageURL unchanged (a stale previous result persists), LoadingFlag ends
false, and the selected file and output format are untouched. -/
theorem submitForm_failure (baseURL : String) (s : ComponentState)
    (e : HttpError) (f : File) (h : s.selectedFile = some f) :
    (submitForm baseURL s (Except.error e)).logged = true ∧
      (submitForm baseURL s (Except.error e)).alerted = false ∧
      (submitForm baseURL s (Except.error e)).state.imageUrl = s.imageUrl ∧
      (submitForm baseURL s (Except.error e)).state.loading = false ∧
      (submitForm baseURL s (Except.error e)).state.selectedFile =
        s.selectedFile ∧
      (submitForm baseURL s (Except.error e)).state.outputFormat =
        s.outputFormat := by
  simp [submitForm, submitStart, submitFinish, h]

/-- Witness for C4, at a state holding a stale result: HTTP 500 is logged, the
stale image URL persists, and loading ends false. -/
theorem submitForm_failure_witness :
    (submitForm "example.com"
        { demoState with
            imageUrl := some (createObjectURL ⟨BlobContent.bytes [9],
              "image/gif"⟩) }
        (Except.error ⟨"Request failed with status code 500"⟩)).logged =
      true ∧
      (submitForm "example.com"
          { demoState with
              imageUrl := some (createObjectURL ⟨BlobContent.bytes [9],
                "image/gif"⟩) }
          (Except.error ⟨"Request failed with status code 500"⟩)).state.imageUrl =
        some (createObjectURL ⟨BlobContent.bytes [9], "image/gif"⟩) :=
  ⟨(submitForm_failure "example.com"
      { demoState with
          imageUrl := some (createObjectURL ⟨BlobContent.bytes [9],
            "image/gif"⟩) }
      ⟨"Request failed with status code 500"⟩ demoFile rfl).1,
    (submitForm_failure "example.com"
      { demoState with
          imageUrl := some (createObjectURL ⟨BlobContent.bytes [9],
            "image/gif"⟩) }
      ⟨"Request failed with status code 500"⟩ demoFile rfl).2.2.1⟩

/-- C5: every `submitForm` invocation with a file selected issues a multipart
body of exactly two parts: the raw file under the fixed field name `file`, and
the JSON-stringified output format in an `application/json` blob under the
fixed field name `output_type`; the format is the one selected at invocation,
and a mid-flight change of the selector leaves the issued request unchanged. -/
theorem submitForm_multipart (baseURL : String) (s : ComponentState)
    (resp : Except HttpError HttpResponse) (f : File) (g : String)
    (h : s.selectedFile = some f) :
    (submitForm baseURL s resp).request =
      some { method := "POST", url := convertImageUrl baseURL,
             body := [⟨"file", FormValue.file f⟩,
               ⟨"output_type",
                 FormValue.blob ⟨BlobContent.str (jsonStringify s.outputFormat),
                   "application/json"⟩⟩],
             contentTypeHeader := "multipart/form-data" } ∧
      (submitInterleaved baseURL s g resp).request =
        (submitForm baseURL s resp).request := by
  cases resp <;>
    simp [submitForm, submitInterleaved, submitStart, submitFinish,
      buildFormData, selectFormat, h]

/-- Witness for C5, at a concrete state with output format webp and a
mid-flight change to png: the request body is the two fixed parts carrying the
webp format selected at invocation. -/
theorem submitForm_multipart_witness :
    (submitForm "example.com" demoState (Except.ok demoResp)).request =
      some { method := "POST", url := convertImageUrl "example.com",
             body := [⟨"file", FormValue.file demoFile⟩,
               ⟨"output_type",
                 FormValue.blob ⟨BlobContent.str (jsonStringify "webp"),
                   "application/json"⟩⟩],
             contentTypeHeader := "multipart/form-data" } ∧
      (submitInterleaved "example.com" demoState "png"
          (Except.ok demoResp)).request =
        (submitForm "example.com" demoState (Except.ok demoResp)).request :=
  submitForm_multipart "example.com" demoState (Except.ok demoResp) demoFile
    "png" rfl

/-- C6: on a successful response, `submitForm` overwrites ResultImageURL with
a fresh object URL wrapping the returned bytes tagged with the response's
content-type header; on completion the URL is present, LoadingFlag is false,
and the render region shows exactly the image (no loading indicator). -/
theorem submitForm_success (baseURL : String) (s : ComponentState)
    (r : HttpResponse) (f : File) (h : s.selectedFile = some f) :
    (submitForm baseURL s (Except.ok r)).state.imageUrl =
      some (createObjectURL ⟨BlobContent.bytes r.data, r.contentType⟩) ∧
      (submitForm baseURL s (Except.ok r)).state.loading = false ∧
      renderTemplate (submitForm baseURL s (Except.ok r)).state =
        [RenderedElement.image
          (createObjectURL ⟨BlobContent.bytes r.data, r.contentType⟩)] := by
  simp [submitForm, submitStart, submitFinish, renderTemplate,
    renderImageContainer, h]

/-- Witness for C6: a successful png conversion from a state that already held
a previous result replaces it and renders only the new image. -/
theorem submitForm_success_witness :
    (submitForm "example.com"
        { demoState with
            imageUrl := some (createObjectURL ⟨BlobContent.bytes [9],
              "image/gif"⟩) }
        (Except.ok demoResp)).state.imageUrl =
      some (createObjectURL ⟨BlobContent.bytes [1, 2], "image/png"⟩) ∧
      renderTemplate (submitForm "example.com"
          { demoState with
              imageUrl := some (createObjectURL ⟨BlobContent.bytes [9],
                "image/gif"⟩) }
          (Except.ok demoResp)).state =
        [RenderedElement.image
          (createObjectURL ⟨BlobContent.bytes [1, 2], "image/png"⟩)] :=
  ⟨(submitForm_success "example.com"
      { demoState with
          imageUrl := some (createObjectURL ⟨BlobContent.bytes [9],
            "image/gif"⟩) }
      demoResp demoFile rfl).1,
    (submitForm_success "example.com"
      { demoState with
          imageUrl := some (createObjectURL ⟨BlobContent.bytes [9],
            "image/gif"⟩) }
      demoResp demoFile rfl).2.2⟩

/-- The state reached by selecting a file, converting it successfully, and
then starting a second submission: the first result is still displayed while
the second request is in flight. -/
def resubmitState : ComponentState :=
  (submitStart "example.com"
    (submitForm "example.com" (handleFileUpload [demoFile] initState)
      (Except.ok demoResp)).state).1

/-- C7 counterexample: in the reachable state with a previous result present
and a new submission in flight, the template renders the image AND the
standalone loading indicator (App.vue lines 34-36) simultaneously, so the
render region does not show exactly one of image / indicator / nothing. -/
theorem renderTemplate_both_cex :
    resubmitState.imageUrl.isSome = true ∧ resubmitState.loading = true ∧
      RenderedElement.loadingIndicator ∈ renderTemplate resubmitState ∧
      RenderedElement.image
          (createObjectURL ⟨BlobContent.bytes [1, 2], "image/png"⟩) ∈
        renderTemplate resubmitState := by
  decide

/-- C7 amended: the image-container alone shows exactly one of the image (when
ResultImageURL is present, taking precedence), the loading indicator (when the
URL is absent and LoadingFlag is true), or nothing; but the template also
renders a standalone loading indicator whenever LoadingFlag is true, so an
image and a loading indicator are rendered simultaneously exactly when a
result is present while LoadingFlag is true. -/
theorem renderTemplate_amended (s : ComponentState) :
    ((∃ u, s.imageUrl = some u ∧
        renderImageContainer s = some (RenderedElement.image u)) ∨
      (s.imageUrl = none ∧ s.loading = true ∧
        renderImageContainer s = some RenderedElement.loadingIndicator) ∨
      (s.imageUrl = none ∧ s.loading = false ∧
        renderImageContainer s = none)) ∧
      ((RenderedElement.loadingIndicator ∈ renderTemplate s ∧
          ∃ u, RenderedElement.image u ∈ renderTemplate s) ↔
        s.loading = true ∧ s.imageUrl.isSome = true) := by
  obtain ⟨sf, iu, fmt, ld⟩ := s
  cases iu <;> cases ld <;>
    simp [renderImageContainer, renderTemplate]

/-- C8: a file-selection event with at least one file stores exactly its first
file, replacing any previous selection and changing nothing else; an event
with zero files is a no-op keeping the previous selection; neither path can
fail or validate. -/
theorem handleFileUpload_spec (s : ComponentState) (f : File)
    (rest : List File) :
    handleFileUpload (f :: rest) s = { s with selectedFile := some f } ∧
      handleFileUpload [] s = s :=
  ⟨rfl, rfl⟩

/-- C9: every request `submitForm` issues is an HTTP POST whose target URL is
derived from the build-time environment value VITE_BASE_URL (a parameter of
the embedding, not a constant): `//` ++ base ++ `/convert_image`. -/
theorem submitForm_endpoint (baseURL : String) (s : ComponentState)
    (resp : Except HttpError HttpResponse) (f : File)
    (h : s.selectedFile = some f) :
    ∃ req, (submitForm baseURL s resp).request = some req ∧
      req.method = "POST" ∧ req.url = convertImageUrl baseURL ∧
      req.url = "//" ++ baseURL ++ "/convert_image" := by
  refine ⟨{ method := "POST", url := convertImageUrl baseURL,
            body := buildFormData f s.outputFormat,
            contentTypeHeader := "multipart/form-data" }, ?_, rfl, rfl, rfl⟩
  cases resp <;> simp [submitForm, submitStart, submitFinish, h]

/-- Witness for C9, at a concrete base URL and state. -/
theorem submitForm_endpoint_witness :
    ∃ req,
      (submitForm "example.com" demoState (Except.ok demoResp)).request =
        some req ∧ req.method = "POST" ∧
        req.url = convertImageUrl "example.com" ∧
        req.url = "//" ++ "example.com" ++ "/convert_image" :=
  submitForm_endpoint "example.com" demoState (Except.ok demoResp) demoFile
    rfl

/-- C10: initially no file is selected, the output format is png (a member of
the closed option set), LoadingFlag is false and ResultImageURL is absent;
hence the submit control starts disabled and the render region is empty. -/
theorem initState_spec :
    initState.selectedFile = none ∧ initState.outputFormat = "png" ∧
      initState.outputFormat ∈ outputFormatOptions ∧
      initState.loading = false ∧ initState.imageUrl = none ∧
      isSubmitDisabled initState = true ∧ canSubmit initState = false ∧
      renderTemplate initState = [] := by
  decide

end ConvApp
